import Mathlib

/-!
Verification of the effect-builder library (src/Builder.ts, the v0.3.0
variant: `createLens`, `createBuilderLens`, `createBuilderLenses`,
`getSchemaDefaults`, `define`, `compose`).

The partial builder state is a JavaScript object mapping field names to
runtime values; we embed it as an association list `PState` from `String`
keys to a `Value` type covering the JS primitives the library manipulates
(including `undefined`, since JS property access on a missing key yields
`undefined` and the library's `modify` tests `=== undefined`).  Object
spread `{ ...state, [key]: value }` is embedded as `setK`, which erases the
key and prepends the new binding; this preserves the binding map exactly
(only the enumeration order, which no operation of the library observes,
differs).  The external schema collaborator (`effect`'s `Schema` module) is
embedded as a `StructSchema` record carrying the per-field default
annotations, the struct-level default annotation, and the derived decode
function `Schema.decodeUnknown(schema)` as an abstract
`PState → Except String PState`.
-/

namespace EffectBuilder

/-- JS runtime values as used by the builder: `undefined`, `null`,
booleans, numbers and strings. -/
inductive Value : Type
  | vUndefined
  | vNull
  | vBool (b : Bool)
  | vNum (n : Int)
  | vStr (s : String)
  deriving DecidableEq, Repr

/-- JS truthiness: `undefined`, `null`, `false`, `0` and `""` are falsy,
everything else is truthy.  This is the coercion applied by the
`fieldDefault ? ... : ...` conditional in `getSchemaDefaults`. -/
def Value.truthy : Value → Bool
  | .vUndefined => false
  | .vNull => false
  | .vBool b => b
  | .vNum n => n != 0
  | .vStr s => s != ""

/-- A JS object with values in `α`, as an association list (first binding
of a key wins on lookup). -/
abbrev JsObj (α : Type) : Type := List (String × α)

/-- The builder's partial construction state `Partial<A>`. -/
abbrev PState : Type := JsObj Value

/-- Property lookup: the value bound to `k`, if any. -/
def lookupK {α : Type} : JsObj α → String → Option α
  | [], _ => none
  | kv :: rest, k => if kv.1 = k then some kv.2 else lookupK rest k

/-- Remove every binding of key `k`. -/
def eraseK {α : Type} (k : String) : JsObj α → JsObj α
  | [] => []
  | kv :: rest => if kv.1 = k then eraseK k rest else kv :: eraseK k rest

/-- JS object spread update `{ ...s, [k]: v }`, embedded up to enumeration
order: the binding map of the result binds `k` to `v` and every other key
as in `s`. -/
def setK {α : Type} (k : String) (v : α) (s : JsObj α) : JsObj α :=
  (k, v) :: eraseK k s

/-- JS object spread merge `{ ...a, ...b }`: start from `a` and write each
binding of `b` over it in order, so `b` wins on common keys. -/
def spread {α : Type} (a b : JsObj α) : JsObj α :=
  b.foldl (fun acc kv => setK kv.1 kv.2 acc) a

/-- JS property access `s[k]`: the bound value, or `undefined` when the
key is absent. -/
def jsGet (s : PState) (k : String) : Value :=
  (lookupK s k).getD Value.vUndefined

/-- First-defined choice between two optional values (the shape of a JS
spread precedence result on a single key). -/
def firstSome {α : Type} : Option α → Option α → Option α
  | some v, _ => some v
  | none, y => y

/-- Write an optional binding into an object: `some v` writes it, `none`
leaves the object unchanged. -/
def applySetK {α : Type} (k : String) (v? : Option α) (acc : JsObj α) : JsObj α :=
  match v? with
  | some v => setK k v acc
  | none => acc

/-- A left fold that, for each entry of `l`, either writes a value
computed from the entry into the accumulating object or leaves it
unchanged.  Both `spread` and the default/lens accumulation loops of the
source are instances of this shape. -/
def foldSetK {α β : Type} (g : String → β → Option α) (l : List (String × β))
    (init : JsObj α) : JsObj α :=
  l.foldl (fun acc kv => applySetK kv.1 (g kv.1 kv.2) acc) init

/-- `type Transform<A> = (a: Partial<A>) => Partial<A>` -/
abbrev Transform : Type := PState → PState

/-- `ValidationError`: the tagged error produced by `build` on a schema
decode failure. -/
structure ValidationError : Type where
  message : String
  deriving DecidableEq, Repr

/-- `Lens<S, A>`: `get` is `(s) => s[key]` (so it yields `undefined` for an
absent key), `set` and `modify` return Transforms. -/
structure Lens : Type where
  get : PState → Value
  set : Value → Transform
  modify : (Value → Value) → Transform

/-- `createLens(key)` from the source:
`get = (s) => s[key]`;
`set = (value) => (state) => ({ ...state, [key]: value })`;
`modify = (f) => (state) => { const currentValue = state[key];
 if (currentValue === undefined) return state;
 return { ...state, [key]: f(currentValue) } }`. -/
def createLens (key : String) : Lens where
  get := fun s => jsGet s key
  set := fun v => fun state => setK key v state
  modify := fun f => fun state =>
    let currentValue := jsGet state key
    if currentValue = Value.vUndefined then state
    else setK key (f currentValue) state

/-- The callable-with-properties produced by `createBuilderLens`:
`Object.assign(setter, { get: lens.get, modify: lens.modify })` where
`setter = (value) => lens.set(value)`. -/
structure BuilderLensEntry : Type where
  call : Value → Transform
  get : PState → Value
  modify : (Value → Value) → Transform

/-- `createBuilderLens(key)` from the source. -/
def createBuilderLens (key : String) : BuilderLensEntry :=
  let lens := createLens key
  { call := fun value => lens.set value
    get := lens.get
    modify := lens.modify }

/-- A declared struct field as the builder sees it: only its default
annotation is consulted (`SchemaAST.getDefaultAnnotation(field.ast)`); all
other schema information flows through the decode collaborator. -/
structure Field : Type where
  defaultAnn : Option Value
  deriving DecidableEq, Repr

/-- The external schema collaborator (`effect`'s `Schema.Struct`): the
declared fields with their default annotations, the struct-level default
annotation (a record of bindings when present), and the decode operation
`Schema.decodeUnknown(schema)` as an abstract function from a structural
value to a validated structure or a failure description. -/
structure StructSchema : Type where
  fields : List (String × Field)
  structDefaultAnn : Option PState
  decode : PState → Except String PState

/-- `createBuilderLenses(schema)` from the source: reduce over
`Object.entries(schema.fields)` accumulating
`{ ...acc, [key]: createBuilderLens(key) }`. -/
def createBuilderLenses (fields : List (String × Field)) : JsObj BuilderLensEntry :=
  fields.foldl (fun acc kv => setK kv.1 (createBuilderLens kv.1) acc) []

/-- `getSchemaDefaults(schema)` from the source: fold the fields,
keeping a per-field default annotation only when it is truthy
(`fieldDefault ? { ...acc, [key]: fieldDefault } : acc`, with the absent
annotation read as `undefined` via `Option.getOrElse(() => undefined)`);
then merge the struct-level default annotation over the per-field result
(`{ ...fieldDefaults, ...structDefaults }`).  The source's
`typeof ... === "object"` guards are identically true here because the
struct annotation is embedded as a record of bindings. -/
def getSchemaDefaults (schema : StructSchema) : PState :=
  let fieldDefaults := schema.fields.foldl
    (fun acc kv =>
      let fieldDefault := kv.2.defaultAnn.getD Value.vUndefined
      if fieldDefault.truthy then setK kv.1 fieldDefault acc else acc)
    []
  let structDefaults := schema.structDefaultAnn.getD []
  spread fieldDefaults structDefaults

/-- The record returned by `define`: the generated per-field accessors
(`...lenses`), the schema, and the resolved default state `Default`.  The
`field`, `when` and `build` members are methods below. -/
structure Builder : Type where
  schema : StructSchema
  lenses : JsObj BuilderLensEntry
  Default : PState

/-- `define(schema, defaults)` from the source: build the per-field
accessors, resolve the schema defaults once, and merge
`{ ...schemaDefaults, ...defaults }` (caller defaults win).  An omitted
caller `defaults` argument is the empty record `[]` (spreading
`undefined` contributes no bindings). -/
def define (schema : StructSchema) (defaults : PState) : Builder :=
  let lenses := createBuilderLenses schema.fields
  let schemaDefaults := getSchemaDefaults schema
  let mergedDefaults := spread schemaDefaults defaults
  { schema := schema
    lenses := lenses
    Default := mergedDefaults }

/-- The `field` member of the record returned by `define`:
`(key) => createLens(key)`. -/
def Builder.field (_b : Builder) (key : String) : Lens := createLens key

/-- The `when` member of the record returned by `define`:
`(predicate, ifTrue, ifFalse = (a) => a) => (a) =>
 predicate(a) ? ifTrue(a) : ifFalse(a)`.
The optional third argument is `none` when omitted, in which case the
default `(a) => a` is used. -/
def Builder.when (_b : Builder) (predicate : PState → Bool)
    (ifTrue : Transform) (ifFalse : Option Transform) : Transform :=
  fun a => if predicate a then ifTrue a else (ifFalse.getD (fun x => x)) a

/-- The `build` member of the record returned by `define`:
`pipe(transform(mergedDefaults), Schema.decodeUnknown(schema),
 Effect.mapError((error) => new ValidationError({ message:
 `Schema validation failed: ${error}` })))`, with the one-shot `Effect`
pipeline embedded as `Except`. -/
def Builder.build (b : Builder) (transform : Transform) :
    Except ValidationError PState :=
  Except.mapError
    (fun error => ValidationError.mk ("Schema validation failed: " ++ error))
    (b.schema.decode (transform b.Default))

/-- The module-level `compose(...transforms)` from the source:
`(a) => transforms.reduce((acc, transform) => transform(acc), a)`. -/
def compose (transforms : List Transform) : Transform :=
  fun a => transforms.foldl (fun acc transform => transform acc) a

/-- One own-property of the object literal returned by the source's
`define`: either a generated per-field accessor (contributed by
`...lenses`) or one of the five fixed members written after that spread
(`schema`, `Default`, `field`, `when`, `build`), carrying the
corresponding member value. -/
inductive BuilderProp : Type
  | accessor (entry : BuilderLensEntry)
  | schemaProp (s : StructSchema)
  | defaultProp (d : PState)
  | fieldProp (f : String → Lens)
  | whenProp (w : (PState → Bool) → Transform → Option Transform → Transform)
  | buildProp (bu : Transform → Except ValidationError PState)

/-- The dynamic property map of the object literal the source's `define`
returns: `{ ...lenses, schema, Default: mergedDefaults, field: ...,
when: ..., build: ... }`.  Properties are written in textual order, so
the five fixed members, coming after the spread of the generated
accessors, shadow any accessor generated for a field that happens to be
named `schema`, `Default`, `field`, `when` or `build`. -/
def builderRecord (schema : StructSchema) (defaults : PState) : JsObj BuilderProp :=
  let b := define schema defaults
  setK "build" (BuilderProp.buildProp b.build)
    (setK "when" (BuilderProp.whenProp b.when)
      (setK "field" (BuilderProp.fieldProp b.field)
        (setK "Default" (BuilderProp.defaultProp b.Default)
          (setK "schema" (BuilderProp.schemaProp b.schema)
            ((createBuilderLenses schema.fields).map
              (fun kv => (kv.1, BuilderProp.accessor kv.2)))))))

/-- What the per-field loop of `getSchemaDefaults` keeps for one declared
field: its default annotation, provided that annotation is present and
truthy. -/
def resolvedFieldDefault (fld : Field) : Option Value :=
  let d := fld.defaultAnn.getD Value.vUndefined
  if d.truthy then some d else none

/-- Concrete schema used to exercise the default resolution: a single
field whose per-field default annotation is the falsy number 0, no
struct-level default. -/
def zeroDefaultSchema : StructSchema where
  fields := [("count", { defaultAnn := some (Value.vNum 0) })]
  structDefaultAnn := none
  decode := fun s => Except.ok s

/-- Concrete schema realizing all three default sources on the same key
(per-field annotation, struct-level annotation, and a caller default is
supplied at the use site). -/
def roleSchema : StructSchema where
  fields := [("role", { defaultAnn := some (Value.vStr "user") })]
  structDefaultAnn := some [("role", Value.vStr "admin")]
  decode := fun s => Except.ok s

/-- Concrete two-field schema used to exercise the generated accessors. -/
def userSchema : StructSchema where
  fields := [("name", { defaultAnn := none }),
             ("age", { defaultAnn := none })]
  structDefaultAnn := none
  decode := fun s => Except.ok s

/-- Concrete schema with no fields, used where only some builder method is
being exercised. -/
def emptySchema : StructSchema where
  fields := []
  structDefaultAnn := none
  decode := fun s => Except.ok s

/-- Concrete schema declaring a field literally named "build" (a legal
struct field name), used to exhibit the shadowing of generated accessors
by the fixed members of the returned record. -/
def buildFieldSchema : StructSchema where
  fields := [("build", { defaultAnn := none }),
             ("name", { defaultAnn := none })]
  structDefaultAnn := none
  decode := fun s => Except.ok s

/-- Concrete schema with two falsy per-field defaults (the number 0 and
the empty string), used to exercise the truthiness filter. -/
def falsyDefaultsSchema : StructSchema where
  fields := [("count", { defaultAnn := some (Value.vNum 0) }),
             ("label", { defaultAnn := some (Value.vStr "") })]
  structDefaultAnn := none
  decode := fun s => Except.ok s

@[simp]
theorem lookupK_nil {α : Type} (k : String) : lookupK ([] : JsObj α) k = none := rfl

@[simp]
theorem lookupK_cons {α : Type} (kv : String × α) (rest : JsObj α) (k : String) :
    lookupK (kv :: rest) k = if kv.1 = k then some kv.2 else lookupK rest k := rfl

theorem lookupK_eraseK {α : Type} (k k' : String) (s : JsObj α) :
    lookupK (eraseK k s) k' = if k' = k then none else lookupK s k' := by
  induction s with
  | nil => simp [eraseK]
  | cons kv rest ih =>
    by_cases h1 : kv.1 = k
    · by_cases h2 : k' = k
      · subst h2
        simpa [eraseK, h1] using ih
      · have h3 : ¬ k = k' := fun hc => h2 hc.symm
        have h4 : ¬ kv.1 = k' := h1 ▸ h3
        have he : eraseK k (kv :: rest) = eraseK k rest := by simp [eraseK, h1]
        simp only [he, ih, if_neg h2, lookupK_cons, if_neg h4]
    · by_cases h2 : kv.1 = k'
      · have h3 : ¬ k' = k := by
          intro hc
          exact h1 (by rw [h2, hc])
        simp [eraseK, h1, h2, h3]
      · simp [eraseK, h1, h2, ih]

theorem lookupK_setK {α : Type} (k k' : String) (v : α) (s : JsObj α) :
    lookupK (setK k v s) k' = if k = k' then some v else lookupK s k' := by
  by_cases h : k = k'
  · simp [setK, h]
  · have h' : ¬ k' = k := fun hc => h hc.symm
    simp [setK, h, lookupK_eraseK, h']

theorem eraseK_idem {α : Type} (k : String) (s : JsObj α) :
    eraseK k (eraseK k s) = eraseK k s := by
  induction s with
  | nil => rfl
  | cons kv rest ih =>
    by_cases h : kv.1 = k <;> simp [eraseK, h, ih]

theorem lookupK_eq_none_iff {α : Type} (s : JsObj α) (k : String) :
    lookupK s k = none ↔ k ∉ s.map Prod.fst := by
  induction s with
  | nil => simp
  | cons kv rest ih =>
    by_cases h : kv.1 = k
    · simp [h]
    · have h' : ¬ k = kv.1 := fun hc => h hc.symm
      simp [h, h', ih]

@[simp]
theorem firstSome_some {α : Type} (v : α) (y : Option α) :
    firstSome (some v) y = some v := rfl

@[simp]
theorem firstSome_none {α : Type} (y : Option α) : firstSome none y = y := rfl

@[simp]
theorem firstSome_none_right {α : Type} (x : Option α) : firstSome x none = x := by
  cases x <;> rfl

@[simp]
theorem applySetK_some {α : Type} (k : String) (v : α) (acc : JsObj α) :
    applySetK k (some v) acc = setK k v acc := rfl

@[simp]
theorem applySetK_none {α : Type} (k : String) (acc : JsObj α) :
    applySetK k (none : Option α) acc = acc := rfl

theorem lookupK_foldSetK {α β : Type} (g : String → β → Option α)
    (l : List (String × β)) (init : JsObj α) (k : String)
    (hnd : (l.map Prod.fst).Nodup) :
    lookupK (foldSetK g l init) k =
      firstSome ((lookupK l k).bind (g k)) (lookupK init k) := by
  induction l generalizing init with
  | nil => simp [foldSetK]
  | cons kv rest ih =>
    have hnd' : (rest.map Prod.fst).Nodup := (List.nodup_cons.mp hnd).2
    have hnotmem : kv.1 ∉ rest.map Prod.fst := (List.nodup_cons.mp hnd).1
    have hstep :
        foldSetK g (kv :: rest) init =
          foldSetK g rest (applySetK kv.1 (g kv.1 kv.2) init) := rfl
    rw [hstep, ih _ hnd']
    by_cases hk : kv.1 = k
    · have hrest : lookupK rest k = none :=
        (lookupK_eq_none_iff rest k).mpr (hk ▸ hnotmem)
      rw [hrest]
      subst hk
      cases hg : g kv.1 kv.2 with
      | some v => simp [lookupK_setK, hg]
      | none => simp [hg]
    · have hcons : lookupK (kv :: rest) k = lookupK rest k := by simp [hk]
      rw [hcons]
      cases hg : g kv.1 kv.2 with
      | some v => simp [lookupK_setK, hk]
      | none => simp

theorem spread_eq_foldSetK {α : Type} (a b : JsObj α) :
    spread a b = foldSetK (fun _ v => some v) b a := rfl

theorem lookupK_spread {α : Type} (a b : JsObj α) (k : String)
    (hnd : (b.map Prod.fst).Nodup) :
    lookupK (spread a b) k = firstSome (lookupK b k) (lookupK a k) := by
  rw [spread_eq_foldSetK, lookupK_foldSetK _ b a k hnd]
  cases lookupK b k <;> rfl

theorem getSchemaDefaults_eq_foldSetK (schema : StructSchema) :
    getSchemaDefaults schema =
      spread (foldSetK (fun _ fld => resolvedFieldDefault fld) schema.fields [])
        (schema.structDefaultAnn.getD []) := by
  have hstep :
      (fun (acc : PState) (kv : String × Field) =>
        let fieldDefault := kv.2.defaultAnn.getD Value.vUndefined
        if fieldDefault.truthy then setK kv.1 fieldDefault acc else acc)
      = (fun (acc : PState) (kv : String × Field) =>
          applySetK kv.1 (resolvedFieldDefault kv.2) acc) := by
    funext acc kv
    simp only [resolvedFieldDefault]
    by_cases h : (kv.2.defaultAnn.getD Value.vUndefined).truthy <;> simp [h]
  simp only [getSchemaDefaults, foldSetK, hstep]

theorem lookupK_getSchemaDefaults (schema : StructSchema) (k : String)
    (hf : (schema.fields.map Prod.fst).Nodup)
    (hs : ((schema.structDefaultAnn.getD []).map Prod.fst).Nodup) :
    lookupK (getSchemaDefaults schema) k =
      firstSome (lookupK (schema.structDefaultAnn.getD []) k)
        ((lookupK schema.fields k).bind resolvedFieldDefault) := by
  rw [getSchemaDefaults_eq_foldSetK, lookupK_spread _ _ _ hs,
    lookupK_foldSetK _ _ _ _ hf]
  simp

theorem lookupK_lensFold (fields : List (String × Field))
    (acc : JsObj BuilderLensEntry) (k : String) :
    lookupK (fields.foldl (fun a kv => setK kv.1 (createBuilderLens kv.1) a) acc) k =
      if k ∈ fields.map Prod.fst then some (createBuilderLens k)
      else lookupK acc k := by
  induction fields generalizing acc with
  | nil => simp
  | cons kv rest ih =>
    rw [List.foldl_cons, ih]
    by_cases hmem : k ∈ rest.map Prod.fst
    · simp [hmem]
    · by_cases hk : kv.1 = k
      · subst hk
        simp [hmem, lookupK_setK]
      · have hk' : ¬ k = kv.1 := fun hc => hk hc.symm
        simp [hmem, hk, hk', lookupK_setK]

theorem lookupK_createBuilderLenses (fields : List (String × Field)) (k : String)
    (hmem : k ∈ fields.map Prod.fst) :
    lookupK (createBuilderLenses fields) k = some (createBuilderLens k) := by
  rw [createBuilderLenses, lookupK_lensFold, if_pos hmem]

theorem lookupK_mapVal {α β : Type} (f : α → β) (l : JsObj α) (k : String) :
    lookupK (l.map (fun kv => (kv.1, f kv.2))) k = (lookupK l k).map f := by
  induction l with
  | nil => rfl
  | cons kv rest ih => by_cases h : kv.1 = k <;> simp [h, ih]

/-- The resolved default state of `define schema defaults`, key by key:
caller defaults first, then the struct-level annotation, then the truthy
per-field annotations. -/
theorem lookupK_define_Default (schema : StructSchema) (defaults : PState) (k : String)
    (hf : (schema.fields.map Prod.fst).Nodup)
    (hs : ((schema.structDefaultAnn.getD []).map Prod.fst).Nodup)
    (hd : (defaults.map Prod.fst).Nodup) :
    lookupK (define schema defaults).Default k =
      firstSome (lookupK defaults k)
        (firstSome (lookupK (schema.structDefaultAnn.getD []) k)
          ((lookupK schema.fields k).bind resolvedFieldDefault)) := by
  have hdef : (define schema defaults).Default =
      spread (getSchemaDefaults schema) defaults := rfl
  rw [hdef, lookupK_spread _ _ _ hd, lookupK_getSchemaDefaults _ _ hf hs]

/-- Claim C1, counterexample: the schema's only field "count" declares the
per-field default 0, there is no struct-level and no caller default, so
the claimed precedence demands the resolved default bind "count" to 0; but
the resolved default state computed by `define` leaves "count" absent,
because the truthiness filter in `getSchemaDefaults` discards the falsy
annotation 0. -/
theorem c1_default_precedence_counterexample :
    zeroDefaultSchema.fields = [("count", { defaultAnn := some (Value.vNum 0) })]
  ∧ zeroDefaultSchema.structDefaultAnn = none
  ∧ lookupK (define zeroDefaultSchema []).Default "count" = none := by
  refine ⟨rfl, rfl, ?_⟩
  decide

/-- Claim C1 (amended): for every field key `k`, the resolved default
state computed at `define` time binds `k` by precedence: the
caller-supplied default if present, else the schema struct-level default,
else the schema per-field declared default provided that default is
truthy (a falsy per-field declared default is discarded), else `k` is
absent; caller-supplied defaults always win over schema-declared ones. -/
theorem c1_default_precedence (schema : StructSchema) (defaults : PState) (k : String)
    (hf : (schema.fields.map Prod.fst).Nodup)
    (hs : ((schema.structDefaultAnn.getD []).map Prod.fst).Nodup)
    (hd : (defaults.map Prod.fst).Nodup) :
    lookupK (define schema defaults).Default k =
      firstSome (lookupK defaults k)
        (firstSome (lookupK (schema.structDefaultAnn.getD []) k)
          ((lookupK schema.fields k).bind resolvedFieldDefault)) :=
  lookupK_define_Default schema defaults k hf hs hd

/-- Claim C1 witness: with a per-field default "user", a struct-level
default "admin" and a caller default "guest" all on the key "role", the
resolved default is "guest". -/
theorem c1_default_precedence_witness :
    lookupK (define roleSchema [("role", Value.vStr "guest")]).Default "role" =
      some (Value.vStr "guest") :=
  (c1_default_precedence roleSchema [("role", Value.vStr "guest")] "role"
    (by decide) (by decide) (by decide)).trans (by decide)

/-- Claim C2: `build(t)` computes `t(resolvedDefaults)` and decodes it
against the schema; it succeeds exactly when the decode succeeds, with
exactly the decoded structure, and otherwise fails with exactly one
`ValidationError` wrapping the schema failure's information — no other
outcome exists. -/
theorem c2_build_validate (schema : StructSchema) (defaults : PState) (t : Transform) :
    (∀ a, (define schema defaults).build t = Except.ok a ↔
      schema.decode (t (define schema defaults).Default) = Except.ok a)
  ∧ (∀ err, (define schema defaults).build t = Except.error err ↔
      ∃ e, schema.decode (t (define schema defaults).Default) = Except.error e ∧
        err = ValidationError.mk ("Schema validation failed: " ++ e)) := by
  have hb : (define schema defaults).build t =
      Except.mapError (fun e => ValidationError.mk ("Schema validation failed: " ++ e))
        (schema.decode (t (define schema defaults).Default)) := rfl
  constructor
  · intro a
    rw [hb]
    cases hdec : schema.decode (t (define schema defaults).Default) <;>
      simp [Except.mapError, hdec]
  · intro err
    rw [hb]
    cases hdec : schema.decode (t (define schema defaults).Default) <;>
      simp [Except.mapError, hdec, eq_comm]

/-- Claim C2 witness: building with the identity transform on the empty
schema (whose decode accepts any state) succeeds with the resolved
default state. -/
theorem c2_build_validate_witness :
    (define emptySchema []).build (fun a => a) = Except.ok [] := by
  have h := (c2_build_validate emptySchema [] (fun a => a)).1 []
  exact h.mpr rfl

/-- Claim C10: a schema per-field declared default whose value is falsy is
discarded by the truthiness check in `getSchemaDefaults` and never appears
in the resolved default state, even when no struct-level or caller default
covers that key. -/
theorem c10_falsy_default_discarded (schema : StructSchema) (defaults : PState)
    (k : String) (fld : Field) (v : Value)
    (hf : (schema.fields.map Prod.fst).Nodup)
    (hs : ((schema.structDefaultAnn.getD []).map Prod.fst).Nodup)
    (hd : (defaults.map Prod.fst).Nodup)
    (hlk : lookupK schema.fields k = some fld)
    (hann : fld.defaultAnn = some v)
    (hfalsy : v.truthy = false)
    (hsd : lookupK (schema.structDefaultAnn.getD []) k = none)
    (hcd : lookupK defaults k = none) :
    lookupK (define schema defaults).Default k = none := by
  rw [lookupK_define_Default schema defaults k hf hs hd, hcd, hsd, hlk]
  simp [resolvedFieldDefault, hann, hfalsy]

/-- Claim C10 witness: the falsy per-field defaults 0 and "" are both
absent from the resolved default state. -/
theorem c10_falsy_default_discarded_witness :
    lookupK (define falsyDefaultsSchema []).Default "label" = none :=
  c10_falsy_default_discarded falsyDefaultsSchema [] "label"
    { defaultAnn := some (Value.vStr "") } (Value.vStr "")
    (by decide) (by decide) (by decide) (by decide) rfl rfl rfl rfl

/-- Claim C3, counterexample: the key "x" is present in the state, bound
to the value `undefined`, so the claim demands that `modify` rebind "x" to
`f(undefined)` = 1; but the code takes its no-op branch and returns the
state unchanged, so "x" is not bound to 1. -/
theorem c3_modify_counterexample :
    (createLens "x").modify (fun _ => Value.vNum 1) [("x", Value.vUndefined)]
      = [("x", Value.vUndefined)]
  ∧ lookupK ((createLens "x").modify (fun _ => Value.vNum 1)
      [("x", Value.vUndefined)]) "x" ≠ some (Value.vNum 1) := by
  constructor
  · decide
  · decide

/-- Claim C3 (amended): if `k` is absent from `s` then `modify(f)(s) = s`
(identity, not an error); if `k` is present with a defined value `v`
(that is, `v` is not `undefined` — a key bound to `undefined` is treated
as absent) then `modify(f)(s)` binds `k` to `f(v)` and agrees with `s` on
every other key; and `modify` never introduces a field that was not
already present. -/
theorem c3_modify (k : String) (f : Value → Value) (s : PState) :
    (lookupK s k = none → (createLens k).modify f s = s)
  ∧ (∀ v, lookupK s k = some v → v ≠ Value.vUndefined →
      ∀ k', lookupK ((createLens k).modify f s) k' =
        if k = k' then some (f v) else lookupK s k')
  ∧ (∀ k', lookupK s k' = none → lookupK ((createLens k).modify f s) k' = none) := by
  refine ⟨?_, ?_, ?_⟩
  · intro h
    simp [createLens, jsGet, h]
  · intro v hv hne k'
    have hget : jsGet s k = v := by simp [jsGet, hv]
    simp [createLens, hget, hne, lookupK_setK]
  · intro k' hk'
    by_cases habs : jsGet s k = Value.vUndefined
    · simp [createLens, habs, hk']
    · have hkk' : ¬ k = k' := by
        intro hc
        subst hc
        exact habs (by simp [jsGet, hk'])
      simp [createLens, habs, lookupK_setK, hkk', hk']

/-- Claim C3 witness: `modify` on the empty state is the identity, and
`modify` on a state binding "age" to 29 rebinds it to 30 while leaving
the other key "name" untouched. -/
theorem c3_modify_witness :
    (createLens "age").modify (fun v => v) ([] : PState) = []
  ∧ lookupK ((createLens "age").modify (fun _ => Value.vNum 30)
      [("name", Value.vStr "John"), ("age", Value.vNum 29)]) "age"
      = some (Value.vNum 30)
  ∧ lookupK ((createLens "age").modify (fun _ => Value.vNum 30)
      [("name", Value.vStr "John"), ("age", Value.vNum 29)]) "name"
      = some (Value.vStr "John") := by
  refine ⟨(c3_modify "age" (fun v => v) []).1 rfl, ?_, ?_⟩
  · have h := ((c3_modify "age" (fun _ => Value.vNum 30)
      [("name", Value.vStr "John"), ("age", Value.vNum 29)]).2.1
      (Value.vNum 29) (by decide) (by decide)) "age"
    exact h.trans (by decide)
  · have h := ((c3_modify "age" (fun _ => Value.vNum 30)
      [("name", Value.vStr "John"), ("age", Value.vNum 29)]).2.1
      (Value.vNum 29) (by decide) (by decide)) "name"
    exact h.trans (by decide)

/-- Claim C9: `modify`'s absence test is value-based, not
key-presence-based: whether `k` is absent from `s` or present but bound to
`undefined`, `modify(f)(s) = s`, the result does not depend on `f` at all,
and `get` returns `undefined` in both situations, so it cannot
distinguish them. -/
theorem c9_modify_value_based (k : String) (f g : Value → Value) (s : PState)
    (h : lookupK s k = some Value.vUndefined ∨ lookupK s k = none) :
    (createLens k).modify f s = s
  ∧ (createLens k).modify f s = (createLens k).modify g s
  ∧ (createLens k).get s = Value.vUndefined := by
  have hget : jsGet s k = Value.vUndefined := by
    cases h with
    | inl h1 => simp [jsGet, h1]
    | inr h1 => simp [jsGet, h1]
  have hid : ∀ h' : Value → Value, (createLens k).modify h' s = s := by
    intro h'
    simp [createLens, hget]
  exact ⟨hid f, (hid f).trans (hid g).symm, hget⟩

/-- Claim C9 witness: with "flag" present but bound to `undefined`, two
different modify functions both leave the state unchanged and `get`
returns `undefined`. -/
theorem c9_modify_value_based_witness :
    (createLens "flag").modify (fun _ => Value.vBool true)
      [("flag", Value.vUndefined)] = [("flag", Value.vUndefined)]
  ∧ (createLens "flag").get [("flag", Value.vUndefined)] = Value.vUndefined := by
  have h := c9_modify_value_based "flag" (fun _ => Value.vBool true)
    (fun _ => Value.vNull) [("flag", Value.vUndefined)] (Or.inl (by decide))
  exact ⟨h.1, h.2.2⟩

/-- Claim C4: `when(p, tTrue, tFalse)` evaluates `p` on the current state
and returns `tTrue(s)` when `p(s)` holds, else `tFalse(s)`, with the
omitted else-branch defaulting to the identity; exactly one branch is
applied per evaluation. -/
theorem c4_when_dispatch (b : Builder) (p : PState → Bool)
    (tTrue : Transform) (fo : Option Transform) (tFalse : Transform) (s : PState) :
    (Builder.when b p tTrue fo s =
      (if p s then tTrue s else (fo.getD (fun a => a)) s))
  ∧ (Builder.when b p tTrue none s = (if p s then tTrue s else s))
  ∧ (p s = true → Builder.when b p tTrue fo s = tTrue s)
  ∧ (p s = false → Builder.when b p tTrue (some tFalse) s = tFalse s) := by
  refine ⟨rfl, rfl, ?_, ?_⟩ <;> intro h <;> simp [Builder.when, h]

/-- Claim C4 witness: a true predicate applies exactly the true branch, a
false predicate with an explicit else-branch applies exactly that
branch. -/
theorem c4_when_dispatch_witness :
    Builder.when (define emptySchema []) (fun _ => true)
      (fun a => setK "x" (Value.vNum 1) a) none [] = [("x", Value.vNum 1)]
  ∧ Builder.when (define emptySchema []) (fun _ => false)
      (fun a => setK "x" (Value.vNum 1) a)
      (some (fun a => setK "y" (Value.vNum 2) a)) [] = [("y", Value.vNum 2)] := by
  constructor
  · have h := (c4_when_dispatch (define emptySchema []) (fun _ => true)
      (fun a => setK "x" (Value.vNum 1) a) none (fun a => a) []).2.2.1 rfl
    exact h.trans (by decide)
  · have h := (c4_when_dispatch (define emptySchema []) (fun _ => false)
      (fun a => setK "x" (Value.vNum 1) a) (some (fun a => setK "y" (Value.vNum 2) a))
      (fun a => setK "y" (Value.vNum 2) a) []).2.2.2 rfl
    exact h.trans (by decide)

/-- Claim C5: `compose` folds the state through the listed transforms
left-to-right, each seeing the previous output, so
`compose(t1,t2,t3)(s) = t3(t2(t1(s)))`; the empty list gives the identity
transform; and appending one more transform applies it last,
unconditionally — no short-circuiting. -/
theorem c5_compose_fold (t1 t2 t3 t : Transform) (ts : List Transform) (s : PState) :
    compose [t1, t2, t3] s = t3 (t2 (t1 s))
  ∧ compose [] s = s
  ∧ compose (ts ++ [t]) s = t (compose ts s) := by
  refine ⟨rfl, rfl, ?_⟩
  simp [compose, List.foldl_append]

/-- Claim C6: the lens get-set law `get(set(v)(s)) = v` holds for every
state and value, and `set` never depends on the previous value stored at
the key: states that agree outside the key are sent to equal results. -/
theorem c6_lens_get_set (k : String) (v : Value) (s s' : PState) :
    (createLens k).get ((createLens k).set v s) = v
  ∧ (eraseK k s = eraseK k s' →
      (createLens k).set v s = (createLens k).set v s') := by
  constructor
  · simp [createLens, jsGet, setK]
  · intro h
    simp [createLens, setK, h]

/-- Claim C6 witness: setting "age" to 30 over states whose prior "age"
bindings differ yields the value 30 on `get`, and identical result
states. -/
theorem c6_lens_get_set_witness :
    (createLens "age").get ((createLens "age").set (Value.vNum 30)
      [("age", Value.vNum 1)]) = Value.vNum 30
  ∧ (createLens "age").set (Value.vNum 30) [("age", Value.vNum 1)]
      = (createLens "age").set (Value.vNum 30) [("age", Value.vNum 2)] := by
  constructor
  · exact (c6_lens_get_set "age" (Value.vNum 30) [("age", Value.vNum 1)] []).1
  · exact (c6_lens_get_set "age" (Value.vNum 30) [("age", Value.vNum 1)]
      [("age", Value.vNum 2)]).2 (by decide)

/-- Claim C7: `set(v2)(s)` binds the key to `v2`, agrees with `s` on every
other key (the input is not mutated — transforms return new states), and
`set(v2)(set(v1)(s)) = set(v2)(s)` — last-write-wins regardless of the
prior content at the key. -/
theorem c7_set_frame (k k' : String) (v1 v2 : Value) (s : PState) :
    lookupK ((createLens k).set v2 s) k = some v2
  ∧ (k' ≠ k → lookupK ((createLens k).set v2 s) k' = lookupK s k')
  ∧ (createLens k).set v2 ((createLens k).set v1 s) = (createLens k).set v2 s := by
  refine ⟨?_, ?_, ?_⟩
  · simp [createLens, lookupK_setK]
  · intro h
    have h' : ¬ k = k' := fun hc => h hc.symm
    simp [createLens, lookupK_setK, h']
  · simp [createLens, setK, eraseK, eraseK_idem]

/-- Claim C7 witness: setting "name" leaves "age" untouched, and two
successive sets of "name" equal the later set alone. -/
theorem c7_set_frame_witness :
    lookupK ((createLens "name").set (Value.vStr "John")
      [("age", Value.vNum 3)]) "age" = some (Value.vNum 3)
  ∧ (createLens "name").set (Value.vStr "John")
      ((createLens "name").set (Value.vStr "Jane") [("age", Value.vNum 3)])
      = (createLens "name").set (Value.vStr "John") [("age", Value.vNum 3)] := by
  constructor
  · exact ((c7_set_frame "name" "age" Value.vNull (Value.vStr "John")
      [("age", Value.vNum 3)]).2.1 (by decide)).trans (by decide)
  · exact (c7_set_frame "name" "age" (Value.vStr "Jane") (Value.vStr "John")
      [("age", Value.vNum 3)]).2.2

/-- Claim C8, counterexample: "build" is a declared field of a concrete
schema, yet the property "build" of the record returned by `define` is
the fixed `build` member — written after the spread of the generated
accessors, it shadows the accessor — so `builder["build"]` is not the
generated accessor and `builder["build"](v)(s) == field("build").set(v)(s)`
fails. -/
theorem c8_builder_accessor_counterexample :
    "build" ∈ buildFieldSchema.fields.map Prod.fst
  ∧ lookupK (builderRecord buildFieldSchema []) "build"
      = some (BuilderProp.buildProp (define buildFieldSchema []).build)
  ∧ lookupK (builderRecord buildFieldSchema []) "build"
      ≠ some (BuilderProp.accessor (createBuilderLens "build")) := by
  refine ⟨by decide, rfl, ?_⟩
  intro h
  rw [show lookupK (builderRecord buildFieldSchema []) "build"
      = some (BuilderProp.buildProp (define buildFieldSchema []).build) from rfl] at h
  simp at h

/-- Claim C8 (amended): for every declared schema field `k` whose name is
not one of the builder's own member names ("schema", "Default", "field",
"when", "build" — those members are spread after the generated accessors
and shadow a like-named accessor), the record returned by `define` carries
at `k` the generated accessor, whose call behaves as `field(k).set` and
whose `get` and `modify` properties are exactly `field(k).get` and
`field(k).modify`. -/
theorem c8_builder_accessor (schema : StructSchema) (defaults : PState) (k : String)
    (hk : k ∈ schema.fields.map Prod.fst)
    (hshadow : k ∉ ["schema", "Default", "field", "when", "build"]) :
    ∃ entry, lookupK (builderRecord schema defaults) k
        = some (BuilderProp.accessor entry)
      ∧ (∀ v s, entry.call v s = ((define schema defaults).field k).set v s)
      ∧ entry.get = ((define schema defaults).field k).get
      ∧ entry.modify = ((define schema defaults).field k).modify := by
  simp only [List.mem_cons, List.not_mem_nil, or_false, not_or] at hshadow
  obtain ⟨h1, h2, h3, h4, h5⟩ := hshadow
  refine ⟨createBuilderLens k, ?_, fun v s => rfl, rfl, rfl⟩
  have hrec : builderRecord schema defaults =
      setK "build" (BuilderProp.buildProp (define schema defaults).build)
        (setK "when" (BuilderProp.whenProp (define schema defaults).when)
          (setK "field" (BuilderProp.fieldProp (define schema defaults).field)
            (setK "Default" (BuilderProp.defaultProp (define schema defaults).Default)
              (setK "schema" (BuilderProp.schemaProp (define schema defaults).schema)
                ((createBuilderLenses schema.fields).map
                  (fun kv => (kv.1, BuilderProp.accessor kv.2))))))) := rfl
  rw [hrec,
    lookupK_setK, if_neg (fun hc => h5 hc.symm),
    lookupK_setK, if_neg (fun hc => h4 hc.symm),
    lookupK_setK, if_neg (fun hc => h3 hc.symm),
    lookupK_setK, if_neg (fun hc => h2 hc.symm),
    lookupK_setK, if_neg (fun hc => h1 hc.symm),
    lookupK_mapVal, lookupK_createBuilderLenses _ _ hk]
  rfl

/-- Claim C8 witness: the generated accessor for the declared field "age"
of a concrete two-field schema, read off the full returned record. -/
theorem c8_builder_accessor_witness :
    ∃ entry, lookupK (builderRecord userSchema []) "age"
        = some (BuilderProp.accessor entry)
      ∧ (∀ v s, entry.call v s = ((define userSchema []).field "age").set v s)
      ∧ entry.get = ((define userSchema []).field "age").get
      ∧ entry.modify = ((define userSchema []).field "age").modify :=
  c8_builder_accessor userSchema [] "age" (by decide) (by decide)

end EffectBuilder
